import Mathlib

/-!
A shallow embedding of the supplier-recommendation program
(`src/supplier.py`): the preprocessor (currency conversion, delivery-date
imputation, derived columns), the recommendation engine
(`recommend_suppliers`), and the fallback advisor (`alasan`), together
with theorems checking the specification's claims against it.

Conventions of the embedding:
* the tabular data is a `List` of records, in file order;
* dates are integers counting days (an epoch offset), so that
  `Delivery_Date - Order_Date` in days is integer subtraction;
* money and rates are exact rationals (`Rat`);
* a nullable column is an `Option`; pandas comparisons against `NaN`
  are `false`, modelled by matching on `none`;
* `pandas.sort_values` on several keys uses `numpy.lexsort`, a stable
  sort; any stable sort with the same comparator yields the same list,
  so sorting is modelled with `List.insertionSort`, which Mathlib
  proves stable;
* `pandas.groupby` (with its default `sort=True`) emits one group per
  distinct key, keys in ascending order.
-/

namespace SupplierRec

/-- `usd_to_idr = 16000`, the fixed conversion rate (line 10). -/
def usd_to_idr : Rat := 16000

/-- One raw CSV row after date parsing, before preprocessing. -/
structure RawRow where
  po_id : Nat
  supplier : String
  item_category : String
  compliance : String
  order_status : String
  quantity : Int
  defective_units : Option Int
  unit_price : Rat
  negotiated_price : Rat
  order_date : Int
  delivery_date : Option Int
deriving DecidableEq

/-- One row of the canonical table after preprocessing. -/
structure Row where
  po_id : Nat
  supplier : String
  item_category : String
  compliance : String
  order_status : String
  quantity : Int
  defective_units : Int
  unit_price : Rat
  negotiated_price : Rat
  order_date : Int
  delivery_date : Option Int
  lead_time : Option Int
  defect_rate : Rat
  price_efficiency : Rat
deriving DecidableEq

/-- Provisional `Lead_Time` (line 19): `(Delivery_Date - Order_Date).dt.days`,
`none` when the delivery date is missing. -/
def leadTimeRaw (r : RawRow) : Option Int :=
  r.delivery_date.map (fun d => d - r.order_date)

/-- The reference lead times of a supplier: the `Lead_Time` values of its
rows that have a non-null `Delivery_Date` (the rows kept by
`dropna(subset=['Delivery_Date'])` on line 20). -/
def supplierRefLeads (rows : List RawRow) (s : String) : List Int :=
  (rows.filter (fun r => r.delivery_date.isSome && decide (r.supplier = s))).filterMap
    leadTimeRaw

/-- Arithmetic mean of a list of rationals (pandas `mean`). -/
def ratMean (l : List Rat) : Rat := l.sum / (l.length : Rat)

/-- `mean_lead_time` (line 20): per-supplier mean of the reference lead
times; `none` when the supplier has no row with a delivery date, i.e. the
supplier is absent from the groupby index. -/
def mean_lead_time (rows : List RawRow) (s : String) : Option Rat :=
  let ls := supplierRefLeads rows s
  if ls = [] then none else some (ratMean (ls.map (fun i => (i : Rat))))

/-- Python's built-in `round` on an exact rational: round half to even. -/
def pyRound (q : Rat) : Int :=
  let n := Rat.floor q
  let frac := q - (n : Rat)
  if frac < 1 / 2 then n
  else if 1 / 2 < frac then n + 1
  else if n % 2 = 0 then n else n + 1

/-- `isi_delivery_date` (lines 23-27): when `Delivery_Date` is null and the
supplier appears in `mean_lead_time`, return
`Order_Date + round(mean_lead_time[supplier])` days; otherwise return the
row's `Delivery_Date` unchanged. -/
def isi_delivery_date (rows : List RawRow) (r : RawRow) : Option Int :=
  match r.delivery_date, mean_lead_time rows r.supplier with
  | none, some m => some (r.order_date + pyRound m)
  | d, _ => d

/-- Preprocessing of one row (lines 10-40): currency conversion, the
delivery-date imputation, `Defective_Units` filled with 0, and the derived
columns recomputed from the imputed values. -/
def preprocessRow (rows : List RawRow) (r : RawRow) : Row :=
  let dd := isi_delivery_date rows r
  let du : Int := r.defective_units.getD 0
  { po_id := r.po_id
    supplier := r.supplier
    item_category := r.item_category
    compliance := r.compliance
    order_status := r.order_status
    quantity := r.quantity
    defective_units := du
    unit_price := r.unit_price * usd_to_idr
    negotiated_price := r.negotiated_price * usd_to_idr
    order_date := r.order_date
    delivery_date := dd
    lead_time := dd.map (fun d => d - r.order_date)
    defect_rate := if r.quantity ≠ 0 then ((du : Rat) / (r.quantity : Rat)) * 100 else 0
    price_efficiency :=
      (1 - (r.negotiated_price * usd_to_idr) / (r.unit_price * usd_to_idr)) * 100 }

/-- The whole preprocessor: the canonical table consumed by the engine. -/
def load_and_prepare (rows : List RawRow) : List Row :=
  rows.map (preprocessRow rows)

/-! ### Recommendation engine (`recommend_suppliers`, lines 43-101) -/

/-- The query criteria collected by the form (§6 of the spec). -/
structure Criteria where
  item_category : String
  max_price : Rat
  max_lead_time : Int
  max_defect_rate : Rat
  compliance_preference : String
deriving DecidableEq

/-- Python's `str.lower()` on the (ASCII) category names: lowercase each
character. -/
def lower (s : String) : String := ⟨s.data.map Char.toLower⟩

/-- The category filter (lines 46-47): when `item_category` is the sentinel
`"All"` no filter is applied, otherwise the row's category must match
case-insensitively. -/
def catPass (c : Criteria) (r : Row) : Bool :=
  if c.item_category = "All" then true
  else decide (lower r.item_category = lower c.item_category)

/-- The compliance filter (lines 49-52): `"Yes"` and `"No"` filter on
equality, anything else applies no filter. -/
def compPass (c : Criteria) (r : Row) : Bool :=
  if c.compliance_preference = "Yes" then decide (r.compliance = "Yes")
  else if c.compliance_preference = "No" then decide (r.compliance = "No")
  else true

/-- A pandas comparison of a nullable integer column against a bound:
`NaN <= m` is false. -/
def leadOk (lt : Option Int) (m : Int) : Bool :=
  match lt with
  | some l => decide (l ≤ m)
  | none => false

/-- The numeric threshold filter (lines 54-58), all bounds inclusive. -/
def numPass (c : Criteria) (r : Row) : Bool :=
  decide (r.negotiated_price ≤ c.max_price) &&
    leadOk r.lead_time c.max_lead_time &&
    decide (r.defect_rate ≤ c.max_defect_rate)

/-- The three successive dataframe filters of lines 46-58. -/
def filteredRows (rows : List Row) (c : Criteria) : List Row :=
  ((rows.filter (catPass c)).filter (compPass c)).filter (numPass c)

/-- All filter predicates AND-combined. -/
def keepRow (c : Criteria) (r : Row) : Bool :=
  catPass c r && compPass c r && numPass c r

/-- The grouping key (lines 63-77): always `Supplier`; `Item_Category` is
part of the key exactly when `item_category = "All"`, and `Compliance`
exactly when `compliance_preference = "All"`. -/
structure GroupKey where
  supplier : String
  item_category : Option String
  compliance : Option String
deriving DecidableEq

/-- The key of one row under the given criteria. -/
def rowKey (c : Criteria) (r : Row) : GroupKey :=
  { supplier := r.supplier
    item_category := if c.item_category = "All" then some r.item_category else none
    compliance :=
      if c.compliance_preference = "All" then some r.compliance else none }

/-- Lexicographic order on strings via their character lists (the ascending
key order `pandas.groupby` uses). -/
def strLt (a b : String) : Prop := a.data < b.data

instance : DecidableRel strLt := fun a b =>
  inferInstanceAs (Decidable (a.data < b.data))

/-- Order on optional key components: `none` first, then by `strLt`. -/
def optStrLt : Option String → Option String → Prop
  | none, some _ => True
  | some a, some b => strLt a b
  | _, _ => False

instance : DecidableRel optStrLt := fun a b =>
  match a, b with
  | none, some _ => isTrue trivial
  | some a, some b => inferInstanceAs (Decidable (strLt a b))
  | none, none => isFalse (fun h => h)
  | some _, none => isFalse (fun h => h)

/-- Ascending order on group keys, mirroring the sorted group order of
`pandas.groupby` (`sort=True` by default). -/
def keyRel (a b : GroupKey) : Prop :=
  strLt a.supplier b.supplier ∨
    (a.supplier = b.supplier ∧
      (optStrLt a.item_category b.item_category ∨
        (a.item_category = b.item_category ∧
          (optStrLt a.compliance b.compliance ∨ a.compliance = b.compliance))))

instance : DecidableRel keyRel := fun a b => by
  unfold keyRel
  infer_instance

/-- The distinct group keys of the filtered set, in ascending order, as
`groupby` enumerates them. -/
def groupKeys (rows : List Row) (c : Criteria) : List GroupKey :=
  List.insertionSort keyRel ((filteredRows rows c).map (rowKey c)).dedup

/-- The rows of one group. -/
def groupOf (rows : List Row) (c : Criteria) (k : GroupKey) : List Row :=
  (filteredRows rows c).filter (fun r => decide (rowKey c r = k))

/-- The distinct `Order_Status` values of the filtered set: the columns the
`crosstab` of lines 88-95 produces. -/
def statusValues (rows : List Row) (c : Criteria) : List String :=
  ((filteredRows rows c).map (fun r => r.order_status)).dedup

/-- One aggregated result row (lines 63-97): the renamed group means and
sums, joined with the per-status counts of the crosstab. -/
structure ResultRow where
  key : GroupKey
  avg_negotiated_price : Rat
  lead_time : Rat
  defect_rate_pct : Rat
  price_efficiency_pct : Rat
  total_quantity : Int
  total_orders : Nat
  status_counts : List (String × Nat)
deriving DecidableEq

/-- The aggregation of one group (lines 64-71 and 79-97); pandas `mean`
skips nulls, hence the `filterMap` for `Lead_Time`. -/
def aggregate (g : List Row) (k : GroupKey) (statuses : List String) :
    ResultRow :=
  { key := k
    avg_negotiated_price := ratMean (g.map (fun r => r.negotiated_price))
    lead_time := ratMean (g.filterMap (fun r => r.lead_time.map (fun i => (i : Rat))))
    defect_rate_pct := ratMean (g.map (fun r => r.defect_rate))
    price_efficiency_pct := ratMean (g.map (fun r => r.price_efficiency))
    total_quantity := (g.map (fun r => r.quantity)).sum
    total_orders := g.length
    status_counts :=
      statuses.map (fun s =>
        (s, (g.filter (fun r => decide (r.order_status = s))).length)) }

/-- The aggregated result table before the final sort, one row per group
key in group-key order. -/
def aggregatedRows (rows : List Row) (c : Criteria) : List ResultRow :=
  (groupKeys rows c).map (fun k =>
    aggregate (groupOf rows c k) k (statusValues rows c))

/-- The final sort order (line 100): ascending lexicographically by
`Defect_Rate (%)`, then `Lead_Time`, then `Avg_Negotiated_Price`. -/
def lex3 (a b : Rat × Rat × Rat) : Prop :=
  a.1 < b.1 ∨ (a.1 = b.1 ∧ (a.2.1 < b.2.1 ∨ (a.2.1 = b.2.1 ∧ a.2.2 ≤ b.2.2)))

instance : DecidableRel lex3 := fun a b => by
  unfold lex3
  infer_instance

/-- The triple of sort keys of a result row. -/
def sortKey (row : ResultRow) : Rat × Rat × Rat :=
  (row.defect_rate_pct, row.lead_time, row.avg_negotiated_price)

/-- The comparator of the final `sort_values` call. -/
def sortRel (a b : ResultRow) : Prop := lex3 (sortKey a) (sortKey b)

instance : DecidableRel sortRel := fun a b => by
  unfold sortRel
  infer_instance

/-- `recommend_suppliers` (lines 43-101): filter, return empty on an empty
filtered set, otherwise group, aggregate, join status counts and sort.
`sort_values` on several columns is `numpy.lexsort`, a stable sort, so it
is modelled by the stable `insertionSort`. -/
def recommend_suppliers (rows : List Row) (c : Criteria) : List ResultRow :=
  if filteredRows rows c = [] then []
  else List.insertionSort sortRel (aggregatedRows rows c)

/-! ### Fallback advisor (lines 140-170) -/

/-- The reason fragments built by `alasan` (lines 157-167), tagged by the
format string they instantiate:
* `nearDefect x` — "Defect Rate mendekati batas (x%)", the near-threshold
  message;
* `defectRate x` — "Defect Rate x%", the exceeds-threshold message;
* `harga p mx` — "Harga p > mx";
* `leadTime l` — "Lead Time l hari". -/
inductive Reason where
  | nearDefect (x : Rat)
  | defectRate (x : Rat)
  | harga (p mx : Rat)
  | leadTime (l : Rat)
deriving DecidableEq

/-- `alasan` (lines 157-167): the reason list of one fallback row, checked
against the original criteria `c`. The near-threshold test comes first;
the exceeds-threshold test is its `elif` branch. -/
def alasan (c : Criteria) (row : ResultRow) : List Reason :=
  (if |row.defect_rate_pct - c.max_defect_rate| ≤ 2 then
      [Reason.nearDefect row.defect_rate_pct]
    else if c.max_defect_rate < row.defect_rate_pct then
      [Reason.defectRate row.defect_rate_pct]
    else [])
  ++ (if c.max_price < row.avg_negotiated_price then
        [Reason.harga row.avg_negotiated_price c.max_price]
      else [])
  ++ (if (c.max_lead_time : Rat) < row.lead_time then
        [Reason.leadTime row.lead_time]
      else [])

/-- The relaxed thresholds of the fallback branch (lines 142-144). -/
def relaxedCriteria (c : Criteria) : Criteria :=
  { c with
    max_price := c.max_price * (3 / 2 : Rat)
    max_lead_time := c.max_lead_time + 2
    max_defect_rate := c.max_defect_rate + 2 }

/-- The fallback advisor (lines 146-169): re-run the engine with relaxed
thresholds and annotate each returned row with its reasons under the
original criteria. The caller invokes it only when the original query
returned empty. -/
def advise (rows : List Row) (c : Criteria) : List (ResultRow × List Reason) :=
  (recommend_suppliers rows (relaxedCriteria c)).map
    (fun row => (row, alasan c row))

/-! ### Concrete fixtures

Small concrete tables used to exercise the claims on explicit inputs.
Dates are epoch-day numbers: 19723 is 2024-01-01, 19728 is 2024-01-06.
Prices are IDR (already converted) in `Row` fixtures and USD in `RawRow`
fixtures. -/

/-- A canonical-table row of category "Widgets", compliance "Yes", status
"Open", with the given supplier, quantity, defective units, prices, dates
and derived fields. -/
def mkRow (po : Nat) (s : String) (q du : Int) (up np : Rat)
    (od : Int) (dd : Option Int) (lt : Option Int) (dr pe : Rat) : Row :=
  { po_id := po, supplier := s, item_category := "Widgets",
    compliance := "Yes", order_status := "Open", quantity := q,
    defective_units := du, unit_price := up, negotiated_price := np,
    order_date := od, delivery_date := dd, lead_time := lt,
    defect_rate := dr, price_efficiency := pe }

/-- Three single-row groups with defect rates [5, 2, 2] and lead times
[3, 1, 4]: the sort-order example of the spec. -/
def tableC2 : List Row :=
  [mkRow 1 "Alpha" 100 5 320000 160000 19723 (some 19726) (some 3) 5 50,
   mkRow 2 "Beta" 100 2 320000 160000 19723 (some 19724) (some 1) 2 50,
   mkRow 3 "Gamma" 100 2 320000 160000 19723 (some 19727) (some 4) 2 50]

/-- A fully permissive "All"/"All" query. -/
def critC2 : Criteria :=
  { item_category := "All", max_price := 1000000, max_lead_time := 10,
    max_defect_rate := 100, compliance_preference := "All" }

/-- Expected aggregated row of the "Alpha" group of `tableC2`. -/
def resA2 : ResultRow :=
  { key := ⟨"Alpha", some "Widgets", some "Yes"⟩,
    avg_negotiated_price := 160000, lead_time := 3, defect_rate_pct := 5,
    price_efficiency_pct := 50, total_quantity := 100, total_orders := 1,
    status_counts := [("Open", 1)] }

/-- Expected aggregated row of the "Beta" group of `tableC2`. -/
def resB2 : ResultRow :=
  { key := ⟨"Beta", some "Widgets", some "Yes"⟩,
    avg_negotiated_price := 160000, lead_time := 1, defect_rate_pct := 2,
    price_efficiency_pct := 50, total_quantity := 100, total_orders := 1,
    status_counts := [("Open", 1)] }

/-- Expected aggregated row of the "Gamma" group of `tableC2`. -/
def resC2 : ResultRow :=
  { key := ⟨"Gamma", some "Widgets", some "Yes"⟩,
    avg_negotiated_price := 160000, lead_time := 4, defect_rate_pct := 2,
    price_efficiency_pct := 50, total_quantity := 100, total_orders := 1,
    status_counts := [("Open", 1)] }

/-- Two suppliers with identical statistics: a full tie of the sort keys,
exercising sort stability. -/
def tableC2w : List Row :=
  [mkRow 1 "Alpha" 100 2 320000 160000 19723 (some 19726) (some 3) 2 50,
   mkRow 2 "Beta" 100 2 320000 160000 19723 (some 19726) (some 3) 2 50]

/-- Expected aggregated row of the "Alpha" group of `tableC2w`. -/
def resW1 : ResultRow :=
  { key := ⟨"Alpha", some "Widgets", some "Yes"⟩,
    avg_negotiated_price := 160000, lead_time := 3, defect_rate_pct := 2,
    price_efficiency_pct := 50, total_quantity := 100, total_orders := 1,
    status_counts := [("Open", 1)] }

/-- Expected aggregated row of the "Beta" group of `tableC2w`. -/
def resW2 : ResultRow :=
  { key := ⟨"Beta", some "Widgets", some "Yes"⟩,
    avg_negotiated_price := 160000, lead_time := 3, defect_rate_pct := 2,
    price_efficiency_pct := 50, total_quantity := 100, total_orders := 1,
    status_counts := [("Open", 1)] }

/-- Fallback fixture: defect rates 6.5% and 5.5%, both failing the
original `max_defect_rate = 5` but passing the relaxed `7`. -/
def tableC1 : List Row :=
  [mkRow 1 "Alpha" 200 13 320000 160000 19723 (some 19726) (some 3) (13 / 2) 50,
   mkRow 2 "Beta" 200 11 320000 160000 19723 (some 19726) (some 3) (11 / 2) 50]

/-- The original criteria of the fallback example: `max_defect_rate = 5`. -/
def critC1 : Criteria :=
  { item_category := "All", max_price := 200000, max_lead_time := 10,
    max_defect_rate := 5, compliance_preference := "All" }

/-- Expected relaxed-query aggregate of the "Alpha" group of `tableC1`. -/
def resA1 : ResultRow :=
  { key := ⟨"Alpha", some "Widgets", some "Yes"⟩,
    avg_negotiated_price := 160000, lead_time := 3,
    defect_rate_pct := 13 / 2, price_efficiency_pct := 50,
    total_quantity := 200, total_orders := 1,
    status_counts := [("Open", 1)] }

/-- Expected relaxed-query aggregate of the "Beta" group of `tableC1`. -/
def resB1 : ResultRow :=
  { key := ⟨"Beta", some "Widgets", some "Yes"⟩,
    avg_negotiated_price := 160000, lead_time := 3,
    defect_rate_pct := 11 / 2, price_efficiency_pct := 50,
    total_quantity := 200, total_orders := 1,
    status_counts := [("Open", 1)] }

/-- Raw four-row table of supplier "Acme": reference lead times [3, 5, 7]
and one row with a missing delivery date ordered on day 19723
(2024-01-01). -/
def tableC3 : List RawRow :=
  [{ po_id := 1, supplier := "Acme", item_category := "Widgets",
     compliance := "Yes", order_status := "Open", quantity := 100,
     defective_units := some 5, unit_price := 20, negotiated_price := 10,
     order_date := 19700, delivery_date := some 19703 },
   { po_id := 2, supplier := "Acme", item_category := "Widgets",
     compliance := "Yes", order_status := "Open", quantity := 100,
     defective_units := some 5, unit_price := 20, negotiated_price := 10,
     order_date := 19700, delivery_date := some 19705 },
   { po_id := 3, supplier := "Acme", item_category := "Widgets",
     compliance := "Yes", order_status := "Closed", quantity := 100,
     defective_units := some 5, unit_price := 20, negotiated_price := 10,
     order_date := 19700, delivery_date := some 19707 },
   { po_id := 4, supplier := "Acme", item_category := "Widgets",
     compliance := "Yes", order_status := "Open", quantity := 100,
     defective_units := none, unit_price := 20, negotiated_price := 10,
     order_date := 19723, delivery_date := none }]

/-- The row of `tableC3` whose delivery date is missing. -/
def rowC3 : RawRow :=
  { po_id := 4, supplier := "Acme", item_category := "Widgets",
    compliance := "Yes", order_status := "Open", quantity := 100,
    defective_units := none, unit_price := 20, negotiated_price := 10,
    order_date := 19723, delivery_date := none }

/-- One-row table exercising the grouping-key example
`item_category = "All"`, `compliance_preference = "Yes"`. -/
def tableC4 : List Row :=
  [mkRow 1 "Alpha" 100 5 320000 160000 19723 (some 19726) (some 3) 5 50]

/-- The grouping-key example query: category "All", compliance "Yes". -/
def critC4 : Criteria :=
  { item_category := "All", max_price := 1000000, max_lead_time := 10,
    max_defect_rate := 100, compliance_preference := "Yes" }

/-- Expected result row of `tableC4` under `critC4`: the key carries
`Item_Category` but no `Compliance`. -/
def res4 : ResultRow :=
  { key := ⟨"Alpha", some "Widgets", none⟩,
    avg_negotiated_price := 160000, lead_time := 3, defect_rate_pct := 5,
    price_efficiency_pct := 50, total_quantity := 100, total_orders := 1,
    status_counts := [("Open", 1)] }

/-- A row sitting exactly at every inclusive threshold of `critC5`, with
the category differing from the query only in case. -/
def rowC5 : Row :=
  { po_id := 1, supplier := "Alpha", item_category := "WIDGETS",
    compliance := "Yes", order_status := "Open", quantity := 100,
    defective_units := 5, unit_price := 320000, negotiated_price := 160000,
    order_date := 19723, delivery_date := some 19726, lead_time := some 3,
    defect_rate := 5, price_efficiency := 50 }

/-- Thresholds equal to `rowC5`'s values; lowercase category query. -/
def critC5 : Criteria :=
  { item_category := "widgets", max_price := 160000, max_lead_time := 3,
    max_defect_rate := 5, compliance_preference := "Yes" }

/-- A cheap and an expensive row for the monotonicity witness. -/
def tableC6 : List Row :=
  [mkRow 1 "Alpha" 100 5 320000 160000 19723 (some 19726) (some 3) 5 50,
   mkRow 2 "Beta" 100 5 640000 400000 19723 (some 19726) (some 3) 5 37.5]

/-- A price ceiling keeping only the cheap row of `tableC6`. -/
def critC6 : Criteria :=
  { item_category := "All", max_price := 200000, max_lead_time := 10,
    max_defect_rate := 100, compliance_preference := "All" }

/-- A raw single-row table whose only supplier has no delivery-date
reference: imputation cannot fill the missing date. -/
def tableC7 : List RawRow :=
  [{ po_id := 1, supplier := "Solo", item_category := "Widgets",
     compliance := "Yes", order_status := "Open", quantity := 100,
     defective_units := some 0, unit_price := 20, negotiated_price := 10,
     order_date := 19723, delivery_date := none }]

/-- The single row of `tableC7`. -/
def rowC7 : RawRow :=
  { po_id := 1, supplier := "Solo", item_category := "Widgets",
    compliance := "Yes", order_status := "Open", quantity := 100,
    defective_units := some 0, unit_price := 20, negotiated_price := 10,
    order_date := 19723, delivery_date := none }

/-- A permissive query for the null-delivery fixture. -/
def critC7 : Criteria :=
  { item_category := "All", max_price := 1000000, max_lead_time := 10,
    max_defect_rate := 100, compliance_preference := "All" }

/-- A raw row with `Quantity = 0` and `Defective_Units = 0`. -/
def rowC8z : RawRow :=
  { po_id := 1, supplier := "Zed", item_category := "Widgets",
    compliance := "Yes", order_status := "Open", quantity := 0,
    defective_units := some 0, unit_price := 20, negotiated_price := 10,
    order_date := 19723, delivery_date := some 19726 }

/-- A raw row with `Quantity = 100` and `Defective_Units = 5`. -/
def rowC8n : RawRow :=
  { po_id := 2, supplier := "Zed", item_category := "Widgets",
    compliance := "Yes", order_status := "Open", quantity := 100,
    defective_units := some 5, unit_price := 20, negotiated_price := 10,
    order_date := 19723, delivery_date := some 19726 }

/-- A price ceiling of 1 IDR filtering out every row of `tableC2`. -/
def critC9 : Criteria :=
  { item_category := "All", max_price := 1, max_lead_time := 10,
    max_defect_rate := 100, compliance_preference := "All" }

/-- The relaxed form of `critC1`: `200000 × 1.5 = 300000`, `10 + 2 = 12`,
`5 + 2 = 7`. -/
def critC1R : Criteria :=
  { item_category := "All", max_price := 300000, max_lead_time := 12,
    max_defect_rate := 7, compliance_preference := "All" }

/-- Expected preprocessed form of `rowC7`: the delivery date stays null. -/
def prC7 : Row :=
  { po_id := 1, supplier := "Solo", item_category := "Widgets",
    compliance := "Yes", order_status := "Open", quantity := 100,
    defective_units := 0, unit_price := 320000, negotiated_price := 160000,
    order_date := 19723, delivery_date := none, lead_time := none,
    defect_rate := 0, price_efficiency := 50 }

/-- The first reference row of `tableC3`. -/
def rowC3ref : RawRow :=
  { po_id := 1, supplier := "Acme", item_category := "Widgets",
    compliance := "Yes", order_status := "Open", quantity := 100,
    defective_units := some 5, unit_price := 20, negotiated_price := 10,
    order_date := 19700, delivery_date := some 19703 }

/-! ## Evaluation lemmas on the fixtures -/

theorem eval_filtered_C2 : filteredRows tableC2 critC2 = tableC2 := by
  have h1 : ((160000 : Rat) ≤ 1000000) := by norm_num
  have h2 : ((5 : Rat) ≤ 100) := by norm_num
  have h3 : ((2 : Rat) ≤ 100) := by norm_num
  simp [filteredRows, catPass, compPass, numPass, leadOk, tableC2, critC2,
    mkRow, List.filter_cons, h1, h2, h3]

theorem eval_aggregated_C2 :
    aggregatedRows tableC2 critC2 = [resA2, resB2, resC2] := by
  have h1 : ((160000 : Rat) ≤ 1000000) := by norm_num
  have h2 : ((5 : Rat) ≤ 100) := by norm_num
  have h3 : ((2 : Rat) ≤ 100) := by norm_num
  have hAB : (['A', 'l', 'p', 'h', 'a'] : List Char) < ['B', 'e', 't', 'a'] := by decide
  have hAG : (['A', 'l', 'p', 'h', 'a'] : List Char) < ['G', 'a', 'm', 'm', 'a'] := by decide
  have hBG : (['B', 'e', 't', 'a'] : List Char) < ['G', 'a', 'm', 'm', 'a'] := by decide
  simp [aggregatedRows, groupKeys, groupOf, statusValues, filteredRows,
    catPass, compPass, numPass, leadOk, rowKey, keyRel, strLt, optStrLt,
    aggregate, ratMean, tableC2, critC2, mkRow, resA2, resB2, resC2,
    List.filter_cons, List.filterMap_cons, h1, h2, h3, hAB, hAG, hBG]

theorem eval_recommend_C2 :
    recommend_suppliers tableC2 critC2 = [resB2, resC2, resA2] := by
  have hBC : sortRel resB2 resC2 := by
    norm_num [sortRel, lex3, sortKey, resB2, resC2]
  have hnAB : ¬ sortRel resA2 resB2 := by
    norm_num [sortRel, lex3, sortKey, resA2, resB2]
  have hnAC : ¬ sortRel resA2 resC2 := by
    norm_num [sortRel, lex3, sortKey, resA2, resC2]
  rw [recommend_suppliers, eval_filtered_C2, eval_aggregated_C2]
  simp [tableC2, hBC, hnAB, hnAC]

theorem eval_filtered_C2w : filteredRows tableC2w critC2 = tableC2w := by
  have h1 : ((160000 : Rat) ≤ 1000000) := by norm_num
  have h3 : ((2 : Rat) ≤ 100) := by norm_num
  simp [filteredRows, catPass, compPass, numPass, leadOk, tableC2w, critC2,
    mkRow, List.filter_cons, h1, h3]

theorem eval_aggregated_C2w :
    aggregatedRows tableC2w critC2 = [resW1, resW2] := by
  have h1 : ((160000 : Rat) ≤ 1000000) := by norm_num
  have h3 : ((2 : Rat) ≤ 100) := by norm_num
  have hAB : (['A', 'l', 'p', 'h', 'a'] : List Char) < ['B', 'e', 't', 'a'] := by decide
  simp [aggregatedRows, groupKeys, groupOf, statusValues, filteredRows,
    catPass, compPass, numPass, leadOk, rowKey, keyRel, strLt, optStrLt,
    aggregate, ratMean, tableC2w, critC2, mkRow, resW1, resW2,
    List.filter_cons, List.filterMap_cons, h1, h3, hAB]

theorem eval_recommend_C2w :
    recommend_suppliers tableC2w critC2 = [resW1, resW2] := by
  have hW : sortRel resW1 resW2 := by
    norm_num [sortRel, lex3, sortKey, resW1, resW2]
  rw [recommend_suppliers, eval_filtered_C2w, eval_aggregated_C2w]
  simp [tableC2w, hW]

theorem eval_orig_C1 : recommend_suppliers tableC1 critC1 = [] := by
  have hn1 : ¬ ((13 : Rat) / 2 ≤ 5) := by norm_num
  have hn2 : ¬ ((11 : Rat) / 2 ≤ 5) := by norm_num
  have h1 : ((160000 : Rat) ≤ 200000) := by norm_num
  simp [recommend_suppliers, filteredRows, catPass, compPass, numPass,
    leadOk, tableC1, critC1, mkRow, List.filter_cons, h1, hn1, hn2]

theorem relaxed_critC1 : relaxedCriteria critC1 = critC1R := by
  norm_num [relaxedCriteria, critC1, critC1R]

theorem eval_filtered_C1R : filteredRows tableC1 critC1R = tableC1 := by
  have h1 : ((160000 : Rat) ≤ 300000) := by norm_num
  have h2 : ((13 : Rat) / 2 ≤ 7) := by norm_num
  have h3 : ((11 : Rat) / 2 ≤ 7) := by norm_num
  simp [filteredRows, catPass, compPass, numPass, leadOk, tableC1, critC1R,
    mkRow, List.filter_cons, h1, h2, h3]

theorem eval_aggregated_C1R :
    aggregatedRows tableC1 critC1R = [resA1, resB1] := by
  have h1 : ((160000 : Rat) ≤ 300000) := by norm_num
  have h2 : ((13 : Rat) / 2 ≤ 7) := by norm_num
  have h3 : ((11 : Rat) / 2 ≤ 7) := by norm_num
  have hAB : (['A', 'l', 'p', 'h', 'a'] : List Char) < ['B', 'e', 't', 'a'] := by decide
  simp [aggregatedRows, groupKeys, groupOf, statusValues, filteredRows,
    catPass, compPass, numPass, leadOk, rowKey, keyRel, strLt, optStrLt,
    aggregate, ratMean, tableC1, critC1R, mkRow, resA1, resB1,
    List.filter_cons, List.filterMap_cons, h1, h2, h3, hAB]

theorem eval_recommend_C1R :
    recommend_suppliers tableC1 critC1R = [resB1, resA1] := by
  have hn : ¬ sortRel resA1 resB1 := by
    norm_num [sortRel, lex3, sortKey, resA1, resB1]
  rw [recommend_suppliers, eval_filtered_C1R, eval_aggregated_C1R]
  simp [tableC1, hn]

theorem eval_advise_C1 :
    advise tableC1 critC1 =
      [(resB1, [Reason.nearDefect (11 / 2)]),
       (resA1, [Reason.nearDefect (13 / 2)])] := by
  have ha1 : |(11 : Rat) / 2 - 5| ≤ 2 := by
    rw [abs_le]
    constructor <;> norm_num
  have ha2 : |(13 : Rat) / 2 - 5| ≤ 2 := by
    rw [abs_le]
    constructor <;> norm_num
  have hp : ¬ ((200000 : Rat) < 160000) := by norm_num
  have hl : ¬ (((10 : Int) : Rat) < 3) := by norm_num
  rw [advise, relaxed_critC1, eval_recommend_C1R]
  simp [alasan, critC1, resA1, resB1, ha1, ha2, hp, hl]
  norm_num

theorem eval_filtered_C4 : filteredRows tableC4 critC4 = tableC4 := by
  have h1 : ((160000 : Rat) ≤ 1000000) := by norm_num
  have h2 : ((5 : Rat) ≤ 100) := by norm_num
  simp [filteredRows, catPass, compPass, numPass, leadOk, tableC4, critC4,
    mkRow, List.filter_cons, h1, h2]

theorem eval_aggregated_C4 : aggregatedRows tableC4 critC4 = [res4] := by
  have h1 : ((160000 : Rat) ≤ 1000000) := by norm_num
  have h2 : ((5 : Rat) ≤ 100) := by norm_num
  simp [aggregatedRows, groupKeys, groupOf, statusValues, filteredRows,
    catPass, compPass, numPass, leadOk, rowKey, keyRel, strLt, optStrLt,
    aggregate, ratMean, tableC4, critC4, mkRow, res4, List.filter_cons,
    List.filterMap_cons, h1, h2]

theorem eval_recommend_C4 : recommend_suppliers tableC4 critC4 = [res4] := by
  rw [recommend_suppliers, eval_filtered_C4, eval_aggregated_C4]
  simp [tableC4]

theorem eval_refleads_C3 : supplierRefLeads tableC3 "Acme" = [3, 5, 7] := by
  simp [supplierRefLeads, tableC3, List.filter_cons, List.filterMap_cons,
    leadTimeRaw]

theorem eval_mean_C3 : mean_lead_time tableC3 "Acme" = some 5 := by
  rw [mean_lead_time, eval_refleads_C3]
  norm_num [ratMean]
  intro h
  exact absurd h (List.cons_ne_nil _ _)

theorem eval_pyRound_5 : pyRound 5 = 5 := by
  norm_num [pyRound, Rat.floor_def']

theorem eval_preprocess_C7 : preprocessRow tableC7 rowC7 = prC7 := by
  norm_num [preprocessRow, isi_delivery_date, mean_lead_time,
    supplierRefLeads, usd_to_idr, tableC7, rowC7, prC7, List.filter_cons,
    List.filterMap_cons, leadTimeRaw]

theorem eval_keep_C9 : ∀ r ∈ tableC2, keepRow critC9 r = false := by
  have hn : ¬ ((160000 : Rat) ≤ 1) := by norm_num
  intro r hr
  simp [tableC2, mkRow] at hr
  rcases hr with h | h | h <;>
    simp [h, keepRow, catPass, compPass, numPass, leadOk, critC9, hn]


/-! ## General helper lemmas -/

theorem mem_filteredRows {rows : List Row} {c : Criteria} {r : Row} :
    r ∈ filteredRows rows c ↔
      r ∈ rows ∧ catPass c r = true ∧ compPass c r = true ∧
        numPass c r = true := by
  simp only [filteredRows, List.mem_filter, and_assoc]

theorem numPass_iff {c : Criteria} {r : Row} :
    numPass c r = true ↔
      r.negotiated_price ≤ c.max_price ∧
        (∃ l, r.lead_time = some l ∧ l ≤ c.max_lead_time) ∧
        r.defect_rate ≤ c.max_defect_rate := by
  unfold numPass leadOk
  cases h : r.lead_time with
  | none => simp
  | some l => simp [and_assoc]

theorem ratMean_le {l : List Rat} {b : Rat} (hne : l ≠ [])
    (h : ∀ x ∈ l, x ≤ b) : ratMean l ≤ b := by
  have hpos : 0 < (l.length : Rat) := by
    have := List.length_pos.mpr hne
    exact_mod_cast this
  rw [ratMean, div_le_iff₀ hpos]
  calc l.sum ≤ l.length • b := List.sum_le_card_nsmul l b h
    _ = b * l.length := by rw [nsmul_eq_mul]; ring

theorem lex3_total (x y : Rat × Rat × Rat) : lex3 x y ∨ lex3 y x := by
  unfold lex3
  rcases lt_trichotomy x.1 y.1 with h | h | h
  · exact Or.inl (Or.inl h)
  · rcases lt_trichotomy x.2.1 y.2.1 with h2 | h2 | h2
    · exact Or.inl (Or.inr ⟨h, Or.inl h2⟩)
    · rcases le_total x.2.2 y.2.2 with h3 | h3
      · exact Or.inl (Or.inr ⟨h, Or.inr ⟨h2, h3⟩⟩)
      · exact Or.inr (Or.inr ⟨h.symm, Or.inr ⟨h2.symm, h3⟩⟩)
    · exact Or.inr (Or.inr ⟨h.symm, Or.inl h2⟩)
  · exact Or.inr (Or.inl h)

theorem lex3_trans {x y z : Rat × Rat × Rat} (h1 : lex3 x y)
    (h2 : lex3 y z) : lex3 x z := by
  unfold lex3 at h1 h2 ⊢
  rcases h1 with h1 | ⟨e1, h1⟩
  · rcases h2 with h2 | ⟨e2, h2⟩
    · exact Or.inl (h1.trans h2)
    · exact Or.inl (lt_of_lt_of_le h1 (le_of_eq e2))
  · rcases h2 with h2 | ⟨e2, h2⟩
    · exact Or.inl (lt_of_le_of_lt (le_of_eq e1) h2)
    · refine Or.inr ⟨e1.trans e2, ?_⟩
      rcases h1 with h1 | ⟨f1, h1⟩
      · rcases h2 with h2 | ⟨f2, h2⟩
        · exact Or.inl (h1.trans h2)
        · exact Or.inl (lt_of_lt_of_le h1 (le_of_eq f2))
      · rcases h2 with h2 | ⟨f2, h2⟩
        · exact Or.inl (lt_of_le_of_lt (le_of_eq f1) h2)
        · exact Or.inr ⟨f1.trans f2, h1.trans h2⟩

instance : IsTotal ResultRow sortRel :=
  ⟨fun a b => lex3_total (sortKey a) (sortKey b)⟩

instance : IsTrans ResultRow sortRel :=
  ⟨fun _ _ _ h1 h2 => lex3_trans h1 h2⟩

theorem mem_groupOf {rows : List Row} {c : Criteria} {k : GroupKey}
    {r : Row} :
    r ∈ groupOf rows c k ↔ r ∈ filteredRows rows c ∧ rowKey c r = k := by
  simp [groupOf, List.mem_filter]

theorem mem_recommend {rows : List Row} {c : Criteria} {res : ResultRow}
    (h : res ∈ recommend_suppliers rows c) :
    ∃ k, (∃ r0 ∈ filteredRows rows c, rowKey c r0 = k) ∧
      res = aggregate (groupOf rows c k) k (statusValues rows c) := by
  unfold recommend_suppliers at h
  split at h
  next => simp at h
  next =>
    rw [List.mem_insertionSort] at h
    unfold aggregatedRows at h
    rw [List.mem_map] at h
    obtain ⟨k, hk, hres⟩ := h
    unfold groupKeys at hk
    rw [List.mem_insertionSort, List.mem_dedup, List.mem_map] at hk
    obtain ⟨r0, hr0, hk0⟩ := hk
    exact ⟨k, ⟨r0, hr0, hk0⟩, hres.symm⟩

theorem length_filter_mono {α : Type} {p q : α → Bool} (l : List α)
    (h : ∀ a ∈ l, p a = true → q a = true) :
    (l.filter p).length ≤ (l.filter q).length := by
  rw [← List.countP_eq_length_filter, ← List.countP_eq_length_filter]
  exact List.countP_mono_left h

theorem supplierRefLeads_ne_nil {rows : List RawRow} {s : String} :
    supplierRefLeads rows s ≠ [] ↔
      ∃ r ∈ rows, r.supplier = s ∧ r.delivery_date.isSome = true := by
  constructor
  · intro h
    obtain ⟨x, hx⟩ := List.exists_mem_of_ne_nil _ h
    rw [supplierRefLeads, List.mem_filterMap] at hx
    obtain ⟨a, ha, hfa⟩ := hx
    rw [List.mem_filter] at ha
    obtain ⟨ha1, ha2⟩ := ha
    rw [Bool.and_eq_true, decide_eq_true_eq] at ha2
    exact ⟨a, ha1, ha2.2, ha2.1⟩
  · intro ⟨r, hr, hs, hd⟩
    obtain ⟨d, hd'⟩ := Option.isSome_iff_exists.mp hd
    apply List.ne_nil_of_mem (a := d - r.order_date)
    rw [supplierRefLeads, List.mem_filterMap]
    refine ⟨r, ?_, ?_⟩
    · rw [List.mem_filter]
      exact ⟨hr, by rw [Bool.and_eq_true, decide_eq_true_eq]; exact ⟨hd, hs⟩⟩
    · rw [leadTimeRaw, hd']
      rfl

theorem aggregatedRows_eq_nil {rows : List Row} {c : Criteria}
    (h : filteredRows rows c = []) : aggregatedRows rows c = [] := by
  unfold aggregatedRows groupKeys
  rw [h]
  simp

/-! ## Claim theorems -/


/-- C8: a row with `Quantity = 0` gets `Defect_Rate = 0` (no
division-by-zero error: the embedding is a total function, as is the
guarded pandas lambda), and a row with `Quantity ≠ 0` gets
`Defect_Rate = Defective_Units / Quantity × 100` (with the imputed
defective-unit count). -/
theorem defect_rate_spec (rows : List RawRow) (r : RawRow) :
    (r.quantity = 0 → (preprocessRow rows r).defect_rate = 0) ∧
    (r.quantity ≠ 0 →
      (preprocessRow rows r).defect_rate =
        ((r.defective_units.getD 0 : Int) : Rat) / (r.quantity : Rat) * 100) := by
  constructor
  · intro h
    simp [preprocessRow, h]
  · intro h
    simp [preprocessRow, h]

/-- Witness for C8: the zero-quantity row of the spec example and a
regular row. -/
theorem defect_rate_spec_witness :
    (preprocessRow [rowC8z] rowC8z).defect_rate = 0 ∧
    (preprocessRow [rowC8n] rowC8n).defect_rate = 5 := by
  constructor
  · exact (defect_rate_spec [rowC8z] rowC8z).1 (by norm_num [rowC8z])
  · have h := (defect_rate_spec [rowC8n] rowC8n).2 (by norm_num [rowC8n])
    rw [h]
    norm_num [rowC8n]

/-- C9: `recommend_suppliers` on an empty table returns the empty result,
and when every row fails the combined filter it also returns the empty
result; both are ordinary values, not exceptions. -/
theorem empty_result_spec :
    (∀ c : Criteria, recommend_suppliers [] c = []) ∧
    (∀ (c : Criteria) (rows : List Row),
      (∀ r ∈ rows, keepRow c r = false) → recommend_suppliers rows c = []) := by
  constructor
  · intro c
    simp [recommend_suppliers, filteredRows]
  · intro c rows h
    have hfil : filteredRows rows c = [] := by
      rw [List.eq_nil_iff_forall_not_mem]
      intro r hr
      rw [mem_filteredRows] at hr
      obtain ⟨h1, h2, h3, h4⟩ := hr
      have hk := h r h1
      rw [keepRow, h2, h3, h4] at hk
      simp at hk
    simp [recommend_suppliers, hfil]

/-- Witness for C9: a 1-IDR price ceiling filters out all of `tableC2`. -/
theorem empty_result_spec_witness :
    recommend_suppliers tableC2 critC9 = [] :=
  empty_result_spec.2 critC9 tableC2 eval_keep_C9

/-- C5: a row is in the filtered set iff it is in the table and every
AND-combined predicate holds: case-insensitive category match (unless
`item_category` is "All"), compliance equality (unless the preference is
"All"), and the three inclusive numeric thresholds. Stated for the
preference domain {"All", "Yes", "No"} of the form's select box. -/
theorem filter_iff_spec (rows : List Row) (c : Criteria) (r : Row)
    (hdom : c.compliance_preference = "All" ∨ c.compliance_preference = "Yes" ∨
      c.compliance_preference = "No") :
    (r ∈ filteredRows rows c ↔
      r ∈ rows ∧
        (c.item_category ≠ "All" →
          lower r.item_category = lower c.item_category) ∧
        (c.compliance_preference ≠ "All" →
          r.compliance = c.compliance_preference) ∧
        r.negotiated_price ≤ c.max_price ∧
        (∃ l, r.lead_time = some l ∧ l ≤ c.max_lead_time) ∧
        r.defect_rate ≤ c.max_defect_rate) := by
  have hcat : catPass c r = true ↔
      (c.item_category ≠ "All" →
        lower r.item_category = lower c.item_category) := by
    unfold catPass
    by_cases h : c.item_category = "All" <;> simp [h]
  have hcomp : compPass c r = true ↔
      (c.compliance_preference ≠ "All" →
        r.compliance = c.compliance_preference) := by
    rcases hdom with h | h | h <;> simp [compPass, h]
  rw [mem_filteredRows, hcat, hcomp, numPass_iff]

/-- Witness for C5: a row exactly at every inclusive threshold, whose
category matches the query only up to case, is kept. -/
theorem filter_iff_spec_witness : rowC5 ∈ filteredRows [rowC5] critC5 := by
  apply (filter_iff_spec [rowC5] critC5 rowC5 (Or.inr (Or.inl rfl))).mpr
  refine ⟨List.mem_singleton_self _, ?_, ?_, ?_, ⟨3, rfl, le_refl 3⟩, ?_⟩
  · intro _
    simp [rowC5, critC5, lower]
  · intro _
    rfl
  · norm_num [rowC5, critC5]
  · norm_num [rowC5, critC5]

/-- C6: raising any one numeric threshold, all else equal, never shrinks
the filtered set. -/
theorem filter_monotone_spec (rows : List Row) (c : Criteria) (p : Rat)
    (L : Int) (d : Rat) :
    (c.max_price ≤ p →
      (filteredRows rows c).length ≤
        (filteredRows rows { c with max_price := p }).length) ∧
    (c.max_lead_time ≤ L →
      (filteredRows rows c).length ≤
        (filteredRows rows { c with max_lead_time := L }).length) ∧
    (c.max_defect_rate ≤ d →
      (filteredRows rows c).length ≤
        (filteredRows rows { c with max_defect_rate := d }).length) := by
  refine ⟨fun hle => ?_, fun hle => ?_, fun hle => ?_⟩
  · apply length_filter_mono
    intro a _ h
    rw [numPass_iff] at h
    rw [numPass_iff]
    exact ⟨h.1.trans hle, h.2.1, h.2.2⟩
  · apply length_filter_mono
    intro a _ h
    rw [numPass_iff] at h
    rw [numPass_iff]
    obtain ⟨l, hl, hll⟩ := h.2.1
    exact ⟨h.1, ⟨l, hl, hll.trans hle⟩, h.2.2⟩
  · apply length_filter_mono
    intro a _ h
    rw [numPass_iff] at h
    rw [numPass_iff]
    exact ⟨h.1, h.2.1, h.2.2.trans hle⟩

/-- Witness for C6: relaxing the 200000 price ceiling of `critC6` to
500000 cannot shrink the filtered set of `tableC6`. -/
theorem filter_monotone_spec_witness :
    (filteredRows tableC6 critC6).length ≤
      (filteredRows tableC6 { critC6 with max_price := 500000 }).length :=
  (filter_monotone_spec tableC6 critC6 500000 10 100).1 (by norm_num [critC6])



/-- C4: every result row's group key has an `Item_Category` component
exactly when `item_category = "All"` and a `Compliance` component exactly
when `compliance_preference = "All"`; the key always carries the supplier
of a filtered row (its `supplier` field is mandatory by construction). -/
theorem grouping_key_spec (rows : List Row) (c : Criteria)
    (res : ResultRow) (h : res ∈ recommend_suppliers rows c) :
    (res.key.item_category.isSome = true ↔ c.item_category = "All") ∧
    (res.key.compliance.isSome = true ↔
      c.compliance_preference = "All") ∧
    ∃ r0 ∈ filteredRows rows c, res.key = rowKey c r0 := by
  obtain ⟨k, ⟨r0, hr0, hk0⟩, hres⟩ := mem_recommend h
  have hkey : res.key = k := by rw [hres]; rfl
  refine ⟨?_, ?_, r0, hr0, by rw [hkey, hk0]⟩
  · rw [hkey, ← hk0, rowKey]
    by_cases h1 : c.item_category = "All" <;> simp [h1]
  · rw [hkey, ← hk0, rowKey]
    by_cases h1 : c.compliance_preference = "All" <;> simp [h1]

/-- Witness for C4: under `critC4` (category "All", compliance "Yes") the
result key of `tableC4` carries a category but no compliance component. -/
theorem grouping_key_spec_witness :
    res4.key.item_category.isSome = true ∧
      res4.key.compliance.isSome = false := by
  have hmem : res4 ∈ recommend_suppliers tableC4 critC4 := by
    rw [eval_recommend_C4]
    exact List.mem_singleton_self _
  have hg := grouping_key_spec tableC4 critC4 res4 hmem
  refine ⟨hg.1.mpr rfl, ?_⟩
  rw [Bool.eq_false_iff]
  intro hs
  have h2 := hg.2.1.mp hs
  simp [critC4] at h2

/-- C10: every result row's aggregates satisfy the query thresholds —
each aggregate is the mean of per-row values that passed the inclusive
filters, over a group of at least one order. -/
theorem result_thresholds_spec (rows : List Row) (c : Criteria)
    (res : ResultRow) (h : res ∈ recommend_suppliers rows c) :
    res.avg_negotiated_price ≤ c.max_price ∧
    res.lead_time ≤ (c.max_lead_time : Rat) ∧
    res.defect_rate_pct ≤ c.max_defect_rate ∧
    1 ≤ res.total_orders := by
  obtain ⟨k, ⟨r0, hr0, hk0⟩, hres⟩ := mem_recommend h
  have hg : r0 ∈ groupOf rows c k := mem_groupOf.mpr ⟨hr0, hk0⟩
  have hne : groupOf rows c k ≠ [] := List.ne_nil_of_mem hg
  have hmem : ∀ r ∈ groupOf rows c k, numPass c r = true := fun r hr =>
    (mem_filteredRows.mp (mem_groupOf.mp hr).1).2.2.2
  subst hres
  refine ⟨?_, ?_, ?_, ?_⟩
  · apply ratMean_le
    · simp [hne]
    · intro x hx
      rw [List.mem_map] at hx
      obtain ⟨r, hr, rfl⟩ := hx
      exact (numPass_iff.mp (hmem r hr)).1
  · apply ratMean_le
    · obtain ⟨l0, hl0, _⟩ := (numPass_iff.mp (hmem r0 hg)).2.1
      apply List.ne_nil_of_mem (a := ((l0 : Int) : Rat))
      rw [List.mem_filterMap]
      exact ⟨r0, hg, by rw [hl0]; rfl⟩
    · intro x hx
      rw [List.mem_filterMap] at hx
      obtain ⟨r, hr, hfx⟩ := hx
      obtain ⟨l, hl, hle⟩ := (numPass_iff.mp (hmem r hr)).2.1
      rw [hl] at hfx
      have hx' : ((l : Int) : Rat) = x := by simpa using hfx
      rw [← hx']
      exact_mod_cast hle
  · apply ratMean_le
    · simp [hne]
    · intro x hx
      rw [List.mem_map] at hx
      obtain ⟨r, hr, rfl⟩ := hx
      exact (numPass_iff.mp (hmem r hr)).2.2
  · exact List.length_pos.mpr hne

/-- Witness for C10: the "Beta" result row of `tableC2` meets every
threshold of `critC2` and counts at least one order. -/
theorem result_thresholds_spec_witness :
    resB2.avg_negotiated_price ≤ critC2.max_price ∧
    resB2.lead_time ≤ (critC2.max_lead_time : Rat) ∧
    resB2.defect_rate_pct ≤ critC2.max_defect_rate ∧
    1 ≤ resB2.total_orders := by
  apply result_thresholds_spec tableC2 critC2 resB2
  rw [eval_recommend_C2]
  simp



theorem eval_ratMean_C3 :
    ratMean ((supplierRefLeads tableC3 "Acme").map (fun i => (i : Rat))) = 5 := by
  rw [eval_refleads_C3]
  norm_num [ratMean]

/-- C3: a record with a missing delivery date whose supplier has a
reference record gets `Delivery_Date = Order_Date + round(mean lead
time)`; with no reference record the date stays null; and the
preprocessed row is what `load_and_prepare` emits for it. -/
theorem imputation_spec (rows : List RawRow) (r : RawRow) (hr : r ∈ rows)
    (hnull : r.delivery_date = none) :
    ((∃ q ∈ rows, q.supplier = r.supplier ∧ q.delivery_date.isSome = true) →
      (preprocessRow rows r).delivery_date =
        some (r.order_date +
          pyRound (ratMean ((supplierRefLeads rows r.supplier).map
            (fun i => (i : Rat)))))) ∧
    ((¬ ∃ q ∈ rows, q.supplier = r.supplier ∧ q.delivery_date.isSome = true) →
      (preprocessRow rows r).delivery_date = none) ∧
    preprocessRow rows r ∈ load_and_prepare rows := by
  refine ⟨?_, ?_, List.mem_map.mpr ⟨r, hr, rfl⟩⟩
  · intro hex
    have hne : supplierRefLeads rows r.supplier ≠ [] :=
      supplierRefLeads_ne_nil.mpr hex
    have hmean : mean_lead_time rows r.supplier =
        some (ratMean ((supplierRefLeads rows r.supplier).map
          (fun i => (i : Rat)))) := by
      rw [mean_lead_time]
      simp [hne]
    show isi_delivery_date rows r = _
    unfold isi_delivery_date
    rw [hnull, hmean]
  · intro hnex
    have hnil : supplierRefLeads rows r.supplier = [] := by
      by_contra hne
      exact hnex (supplierRefLeads_ne_nil.mp hne)
    have hmean : mean_lead_time rows r.supplier = none := by
      rw [mean_lead_time]
      simp [hnil]
    show isi_delivery_date rows r = none
    unfold isi_delivery_date
    rw [hnull, hmean]

/-- Witness for C3: supplier "Acme" with reference lead times [3, 5, 7]
(mean 5) and order date 19723 (2024-01-01) gets the imputed delivery date
19728 (2024-01-06). -/
theorem imputation_spec_witness :
    (preprocessRow tableC3 rowC3).delivery_date = some 19728 := by
  have hmem : rowC3 ∈ tableC3 := by simp [tableC3, rowC3]
  have hex : ∃ q ∈ tableC3, q.supplier = rowC3.supplier ∧
      q.delivery_date.isSome = true := by
    refine ⟨rowC3ref, ?_, rfl, rfl⟩
    simp [tableC3, rowC3ref]
  have h := (imputation_spec tableC3 rowC3 hmem rfl).1 hex
  rw [h]
  have hsup : rowC3.supplier = "Acme" := rfl
  rw [hsup, eval_ratMean_C3, eval_pyRound_5]
  rfl

/-- C7 counterexample: the preprocessed `tableC7` row keeps a null
delivery date yet satisfies the price and defect-rate comparisons of
`critC7` — so it does not fail *every* numeric threshold comparison; only
the `Lead_Time` comparison (and hence the conjunction) fails. -/
theorem null_delivery_passes_price_comparison :
    (preprocessRow tableC7 rowC7).delivery_date = none ∧
    (preprocessRow tableC7 rowC7).negotiated_price ≤ critC7.max_price ∧
    (preprocessRow tableC7 rowC7).defect_rate ≤ critC7.max_defect_rate ∧
    numPass critC7 (preprocessRow tableC7 rowC7) = false := by
  rw [eval_preprocess_C7]
  refine ⟨rfl, ?_, ?_, ?_⟩
  · norm_num [prC7, critC7]
  · norm_num [prC7, critC7]
  · simp [numPass, leadOk, prC7]

/-- C7 amended: a preprocessed row whose delivery date stays null has a
null lead time, fails the `Lead_Time` threshold comparison and with it
the AND-combined numeric filter, and is excluded from the filtered set of
every query (no error: all functions involved are total). -/
theorem null_delivery_excluded_spec (rows : List RawRow) (r : RawRow)
    (c : Criteria)
    (hnull : (preprocessRow rows r).delivery_date = none) :
    (preprocessRow rows r).lead_time = none ∧
    leadOk (preprocessRow rows r).lead_time c.max_lead_time = false ∧
    numPass c (preprocessRow rows r) = false ∧
    preprocessRow rows r ∉ filteredRows (load_and_prepare rows) c := by
  have hlead : (preprocessRow rows r).lead_time = none := by
    show (isi_delivery_date rows r).map _ = none
    have hd : isi_delivery_date rows r = none := hnull
    rw [hd]
    rfl
  have hnum : numPass c (preprocessRow rows r) = false := by
    rw [numPass, hlead]
    simp [leadOk]
  refine ⟨hlead, by rw [hlead]; rfl, hnum, ?_⟩
  intro hmem
  have hpass := (mem_filteredRows.mp hmem).2.2.2
  rw [hnum] at hpass
  exact Bool.false_ne_true hpass

/-- Witness for C7: the `tableC7` row is excluded from the permissive
`critC7` query. -/
theorem null_delivery_excluded_spec_witness :
    preprocessRow tableC7 rowC7 ∉
      filteredRows (load_and_prepare tableC7) critC7 :=
  (null_delivery_excluded_spec tableC7 rowC7 critC7
    (by rw [eval_preprocess_C7]; rfl)).2.2.2



/-- C2: the result of `recommend_suppliers` is sorted ascending by the
lexicographic key (`Defect_Rate (%)`, `Lead_Time`,
`Avg_Negotiated_Price`); it is a permutation of the aggregated rows; the
sort is stable, so rows tied on all three keys keep their group-key
order; and on the spec's concrete example the output order is
(2, 1), (2, 4), (5, 3). -/
theorem recommend_sort_spec :
    (∀ (rows : List Row) (c : Criteria),
      (recommend_suppliers rows c).Sorted sortRel) ∧
    (∀ (rows : List Row) (c : Criteria),
      List.Perm (recommend_suppliers rows c) (aggregatedRows rows c)) ∧
    (∀ (rows : List Row) (c : Criteria) (a b : ResultRow), sortRel a b →
      List.Sublist [a, b] (aggregatedRows rows c) →
      List.Sublist [a, b] (recommend_suppliers rows c)) ∧
    (recommend_suppliers tableC2 critC2).map
        (fun r => (r.defect_rate_pct, r.lead_time)) =
      [(2, 1), (2, 4), (5, 3)] := by
  refine ⟨?_, ?_, ?_, ?_⟩
  · intro rows c
    rw [recommend_suppliers]
    split
    · exact List.sorted_nil
    · exact List.sorted_insertionSort sortRel _
  · intro rows c
    rw [recommend_suppliers]
    split
    next h => rw [aggregatedRows_eq_nil h]
    next => exact List.perm_insertionSort sortRel _
  · intro rows c a b hab hsub
    rw [recommend_suppliers]
    split
    next h =>
      rw [aggregatedRows_eq_nil h] at hsub
      simp at hsub
    next => exact List.pair_sublist_insertionSort hab hsub
  · rw [eval_recommend_C2]
    simp [resA2, resB2, resC2]

/-- Witness for C2: the two fully tied result rows of `tableC2w` keep
their group-key order ("Alpha" before "Beta") in the sorted output. -/
theorem recommend_sort_spec_witness :
    sortRel resW1 resW2 ∧
      List.Sublist [resW1, resW2] (recommend_suppliers tableC2w critC2) := by
  have hW : sortRel resW1 resW2 := by
    norm_num [sortRel, lex3, sortKey, resW1, resW2]
  have hsub : List.Sublist [resW1, resW2] (aggregatedRows tableC2w critC2) := by
    rw [eval_aggregated_C2w]
  exact ⟨hW, recommend_sort_spec.2.2.1 tableC2w critC2 resW1 resW2 hW hsub⟩

/-- C1 counterexample: in fallback mode with original
`max_defect_rate = 5`, the returned row whose `Defect_Rate (%)` is 6.5
does NOT get a "defect rate 6.5%" reason: because |6.5 − 5| ≤ 2, the
near-threshold branch fires instead (and the 5.5 row also gets the
near-threshold reason). -/
theorem fallback_reason_6_5_not_defectRate :
    recommend_suppliers tableC1 critC1 = [] ∧
    (advise tableC1 critC1).map (fun p => (p.1.defect_rate_pct, p.2)) =
      [(11 / 2, [Reason.nearDefect (11 / 2)]),
       (13 / 2, [Reason.nearDefect (13 / 2)])] ∧
    Reason.defectRate (13 / 2) ∉
      [Reason.nearDefect ((11 : Rat) / 2), Reason.nearDefect (13 / 2)] := by
  refine ⟨eval_orig_C1, ?_, by simp⟩
  rw [eval_advise_C1]
  simp [resA1, resB1]

/-- C1 amended: `alasan` checks the near-threshold condition before the
exceeds-threshold condition for every row — a row within 2 of the
original `max_defect_rate` gets the near-threshold reason and never a
"defect rate X%" reason, and the exceeds reason appears only when the
near check fails and the rate exceeds the threshold. -/
theorem fallback_near_check_first (rows : List Row) (c : Criteria)
    (res : ResultRow) (rs : List Reason)
    (hmem : (res, rs) ∈ advise rows c) :
    (|res.defect_rate_pct - c.max_defect_rate| ≤ 2 →
      Reason.nearDefect res.defect_rate_pct ∈ rs ∧
        ∀ x, Reason.defectRate x ∉ rs) ∧
    (¬ |res.defect_rate_pct - c.max_defect_rate| ≤ 2 →
      c.max_defect_rate < res.defect_rate_pct →
      Reason.defectRate res.defect_rate_pct ∈ rs) := by
  rw [advise, List.mem_map] at hmem
  obtain ⟨row, hrow, heq⟩ := hmem
  have h1 : row = res := congrArg Prod.fst heq
  have h2 : alasan c row = rs := congrArg Prod.snd heq
  subst h1
  rw [← h2]
  constructor
  · intro hnear
    rw [alasan, if_pos hnear]
    constructor
    · simp
    · intro x
      split_ifs <;> simp
  · intro hfar hgt
    rw [alasan, if_neg hfar, if_pos hgt]
    simp

/-- Witness for C1: the 6.5% row returned by the fallback query on
`tableC1` gets the near-threshold reason and no exceeds-threshold
reason. -/
theorem fallback_near_check_first_witness :
    Reason.nearDefect resA1.defect_rate_pct ∈ alasan critC1 resA1 ∧
      ∀ x, Reason.defectRate x ∉ alasan critC1 resA1 := by
  have hrow : resA1 ∈ recommend_suppliers tableC1 (relaxedCriteria critC1) := by
    rw [relaxed_critC1, eval_recommend_C1R]
    simp
  have hmem : (resA1, alasan critC1 resA1) ∈ advise tableC1 critC1 := by
    rw [advise]
    exact List.mem_map.mpr ⟨resA1, hrow, rfl⟩
  apply (fallback_near_check_first tableC1 critC1 resA1
    (alasan critC1 resA1) hmem).1
  have : resA1.defect_rate_pct = 13 / 2 := rfl
  rw [this]
  have hc : critC1.max_defect_rate = 5 := rfl
  rw [hc, abs_le]
  constructor <;> norm_num


end SupplierRec
